import Mathlib

/-!
Verification of the CRSM7 state-evolution and binding engine.

The Rust sources define the same design twice: once in the `crsm7-engine`
crate (`state.rs`, `mesh.rs`, `hamiltonian.rs`, `duality.rs`), and once in
the `runtime` crate (`manifold/crsm7.rs`, `dual_runtime.rs`,
`projectors/`).  We embed both, prefixed `Engine.` and `Runtime.`
respectively.  All `f64` values are modelled as rationals: every operation
the claims touch is field arithmetic, comparisons, `min`/`max` and a
handful of libm calls (`exp`, `sqrt`, `sin`, `cos`, `powf`); the libm
calls are abstracted into an explicit `FloatOps` record passed to the
functions that use them, exactly where the Rust calls libm.
-/

/-- Abstract libm primitives used by the Rust code (`f64::exp`,
`f64::sqrt`, `f64::sin`, `f64::cos`, `f64::powf`, `f64::to_radians`),
modelled as unspecified rational functions supplied by the caller. -/
structure FloatOps where
  fexp : ℚ → ℚ
  fsqrt : ℚ → ℚ
  fsin : ℚ → ℚ
  fcos : ℚ → ℚ
  fpow : ℚ → ℚ → ℚ
  torad : ℚ → ℚ

/-- Rust `THETA_CRITICAL` from `state.rs` / `manifold/crsm7.rs`: 51.843. -/
def THETA_CRITICAL : ℚ := 51843 / 1000

/-- Rust `DET_CRITICAL` from `state.rs`: 0.61803398875. -/
def DET_CRITICAL : ℚ := 61803398875 / 100000000000

/-- Rust `OMEGA_SOV_THRESHOLD` from `state.rs`: 0.97. -/
def OMEGA_SOV_THRESHOLD : ℚ := 97 / 100

/-- Rust `EMERGENCE_THRESHOLD` from `state.rs`: 7.0. -/
def EMERGENCE_THRESHOLD : ℚ := 7

/-- Rust `GAMMA_TOLERANCE` from `state.rs`: 1e-9. -/
def GAMMA_TOLERANCE : ℚ := 1 / 10 ^ 9

/-- Rust `EMERGENCE_MAX` from `state.rs`: 1e12. -/
def EMERGENCE_MAX : ℚ := 10 ^ 12

/-- Rust `K_GAMMA` from `mesh.rs`: 0.1. -/
def K_GAMMA : ℚ := 1 / 10

/-- Rust `f64::MAX`, returned by `Z3Mesh::metric_internal` on an
out-of-range index: (2^53 - 1) * 2^971. -/
def F64_MAX : ℚ := (2 ^ 53 - 1) * 2 ^ 971

/-! ## crsm7-engine crate: `state.rs` -/

/-- Rust `CRSM7State` from `crsm7-engine/src/state.rs`. -/
structure Engine.CRSM7State where
  lambda : ℚ
  gamma : ℚ
  phi : ℚ
  xi : ℚ
  rho_polarity : ℚ
  theta : ℚ
  tau : ℚ
deriving DecidableEq, Repr

/-- Rust `CRSM7State::compute_emergence` (`state.rs` lines 93-100):
`xi = lambda*phi/gamma` when `gamma > GAMMA_TOLERANCE`, else the
`EMERGENCE_MAX` cap. -/
def Engine.CRSM7State.compute_emergence (s : Engine.CRSM7State) : Engine.CRSM7State :=
  if s.gamma > GAMMA_TOLERANCE then
    { s with xi := s.lambda * s.phi / s.gamma }
  else
    { s with xi := EMERGENCE_MAX }

/-- Rust `CRSM7State::new` (`state.rs` lines 71-90): builds the record with
`xi = 0` and then computes emergence. -/
def Engine.CRSM7State.new (lambda gamma phi rho_polarity theta tau : ℚ) :
    Engine.CRSM7State :=
  Engine.CRSM7State.compute_emergence
    { lambda := lambda, gamma := gamma, phi := phi, xi := 0,
      rho_polarity := rho_polarity, theta := theta, tau := tau }

/-- Rust `CRSM7State::evolve` (`state.rs` lines 115-138).  `alpha = 0.1`,
`det_factor = DET_CRITICAL.powf(-0.5)` (a libm call, hence `ops.fpow`);
the information step reads the already-updated, clamped `lambda`. -/
def Engine.CRSM7State.evolve (ops : FloatOps) (dt : ℚ) (s : Engine.CRSM7State) :
    Engine.CRSM7State :=
  let alpha : ℚ := 1 / 10
  let det_factor := ops.fpow DET_CRITICAL (-(1 / 2))
  let lambda1 := s.lambda + alpha * det_factor * s.lambda * dt
  let lambda2 := min lambda1 (999 / 1000)
  let gamma1 := s.gamma * ops.fexp (-alpha * dt)
  let gamma2 := max gamma1 GAMMA_TOLERANCE
  let phi1 := s.phi + (1 / 100) * lambda2 * dt
  let tau1 := s.tau + dt
  Engine.CRSM7State.compute_emergence
    { s with lambda := lambda2, gamma := gamma2, phi := phi1, tau := tau1 }

/-- Rust `CRSM7State::compute_sovereignty` (`state.rs` lines 181-185). -/
def Engine.CRSM7State.compute_sovereignty (s : Engine.CRSM7State) : ℚ :=
  s.lambda * (1 - s.gamma) * min (s.xi / EMERGENCE_THRESHOLD) 1

/-- Rust `CRSM7State::check_sovereignty` (`state.rs` lines 172-178):
`omega_sov >= 0.97 && (|gamma| <= 1e-6 || xi >= EMERGENCE_THRESHOLD)`. -/
def Engine.CRSM7State.check_sovereignty (s : Engine.CRSM7State) : Bool :=
  decide (s.compute_sovereignty ≥ OMEGA_SOV_THRESHOLD) &&
    (decide (|s.gamma| ≤ 1 / 10 ^ 6) || decide (s.xi ≥ EMERGENCE_THRESHOLD))

/-- Rust `CRSM7State::as_array` (`state.rs` lines 188-198): the canonical
7-component order Λ, Γ, Φ, Ξ, ρ, θ, τ. -/
def Engine.CRSM7State.as_array (s : Engine.CRSM7State) : Fin 7 → ℚ :=
  ![s.lambda, s.gamma, s.phi, s.xi, s.rho_polarity, s.theta, s.tau]

/-! ## crsm7-engine crate: `duality.rs` -/

/-- Rust `DualityOperator` from `crsm7-engine/src/duality.rs`. -/
structure Engine.DualityOperator where
  rank : ℤ
deriving DecidableEq, Repr

/-- Rust `DualityOperator::new`. -/
def Engine.DualityOperator.new : Engine.DualityOperator := { rank := 1 }

/-- Rust `DualityOperator::j_involution`: `J(psi) = -psi`. -/
def Engine.DualityOperator.j_involution (_op : Engine.DualityOperator) (psi : ℚ) : ℚ :=
  -psi

/-- Rust `DualityOperator::pi_plus`: `0.5 * (psi + J(psi))`. -/
def Engine.DualityOperator.pi_plus (op : Engine.DualityOperator) (psi : ℚ) : ℚ :=
  (1 / 2) * (psi + op.j_involution psi)

/-- Rust `DualityOperator::pi_minus`: `0.5 * (psi - J(psi))`. -/
def Engine.DualityOperator.pi_minus (op : Engine.DualityOperator) (psi : ℚ) : ℚ :=
  (1 / 2) * (psi - op.j_involution psi)

/-- Rust `DualityOperator::bifurcate`: `(pi_plus psi, pi_minus psi)`. -/
def Engine.DualityOperator.bifurcate (op : Engine.DualityOperator) (psi : ℚ) : ℚ × ℚ :=
  (op.pi_plus psi, op.pi_minus psi)

/-! ## runtime crate: `projectors/` -/

/-- Rust `involution_j` from `runtime/src/projectors/involution_j.rs`. -/
def Runtime.involution_j (psi : ℚ) : ℚ := -psi

/-- Rust `pi_plus` from `runtime/src/projectors/pi_plus.rs`:
`0.5 * (psi + involution_j(psi))`. -/
def Runtime.pi_plus (psi : ℚ) : ℚ := (1 / 2) * (psi + Runtime.involution_j psi)

/-- Rust `pi_minus` from `runtime/src/projectors/pi_minus.rs`:
`0.5 * (psi - involution_j(psi))`. -/
def Runtime.pi_minus (psi : ℚ) : ℚ := (1 / 2) * (psi - Runtime.involution_j psi)

/-- Rust `bifurcate` from `runtime/src/projectors/mod.rs`. -/
def Runtime.bifurcate (psi : ℚ) : ℚ × ℚ := (Runtime.pi_plus psi, Runtime.pi_minus psi)

/-! ## crsm7-engine crate: `hamiltonian.rs` -/

/-- Rust `CRSMHamiltonian` from `crsm7-engine/src/hamiltonian.rs` (the
`duality` field carries no data and is omitted). -/
structure Engine.CRSMHamiltonian where
  gradient_coupling : ℚ
  torsion_coupling : ℚ
deriving DecidableEq, Repr

/-- Rust `CRSMHamiltonian::compute_derivative` (`hamiltonian.rs` lines
90-110): per-unit-time deltas, built from the pre-evolution state, with
the decoherence delta taken as an absolute value; the result is a fresh
`CRSM7State` via `new` followed by a (redundant) emergence recompute. -/
def Engine.CRSMHamiltonian.compute_derivative (_h : Engine.CRSMHamiltonian)
    (ops : FloatOps) (s : Engine.CRSM7State) : Engine.CRSM7State :=
  let alpha : ℚ := 1 / 10
  let det_g : ℚ := DET_CRITICAL
  let det_factor := ops.fpow det_g (-(1 / 2))
  let d_lambda := alpha * det_factor * s.lambda
  let d_gamma := -(alpha * s.gamma)
  let d_phi := (1 / 100) * s.lambda
  let d_tau : ℚ := 1
  Engine.CRSM7State.compute_emergence
    (Engine.CRSM7State.new d_lambda |d_gamma| d_phi s.rho_polarity THETA_CRITICAL d_tau)

/-- Rust `CRSMHamiltonian::evolve_state` (`hamiltonian.rs` lines 113-126):
applies the derivative's `lambda`/`phi` deltas scaled by `dt`, decays
`gamma` by `exp(-0.1*dt)` floored at `1e-9`, advances `tau`, recomputes
emergence.  The `phi` delta uses the derivative's (pre-update) lambda. -/
def Engine.CRSMHamiltonian.evolve_state (h : Engine.CRSMHamiltonian)
    (ops : FloatOps) (dt : ℚ) (s : Engine.CRSM7State) : Engine.CRSM7State :=
  let derivative := h.compute_derivative ops s
  let lambda1 := s.lambda + derivative.lambda * dt
  let lambda2 := min lambda1 (999 / 1000)
  let gamma1 := s.gamma * ops.fexp (-(1 / 10) * dt)
  let gamma2 := max gamma1 (1 / 10 ^ 9)
  let phi1 := s.phi + derivative.phi * dt
  let tau1 := s.tau + dt
  Engine.CRSM7State.compute_emergence
    { s with lambda := lambda2, gamma := gamma2, phi := phi1, tau := tau1 }

/-! ## crsm7-engine crate: `mesh.rs` -/

/-- Rust `Gene` from `crsm7-engine/src/mesh.rs`. -/
structure Engine.Gene where
  id : String
  name : String
  state : Engine.CRSM7State
  bound : Bool
deriving DecidableEq, Repr

/-- Rust `Edge` from `crsm7-engine/src/mesh.rs` (`from` is a Lean keyword, so
the field is spelled `from_`). -/
structure Engine.Edge where
  from_ : ℕ
  to_ : ℕ
  gamma : ℚ
  weight : ℚ
  bound : Bool
deriving DecidableEq, Repr

/-- Rust `Matrix7D` from `crsm7-engine/src/mesh.rs`: flattened
`size × size × 7` weight data. -/
structure Engine.Matrix7D where
  size : ℕ
  data : List ℚ
deriving DecidableEq, Repr

/-- Rust `Matrix7D::new`: `size*size*7` zeros. -/
def Engine.Matrix7D.new (size : ℕ) : Engine.Matrix7D :=
  { size := size, data := List.replicate (size * size * 7) 0 }

/-- Rust `Matrix7D::get` (`mesh.rs` lines 88-94): out-of-range indices return
`0.0`; in range the flat index is read from `data`.  Rust indexing
panics when the flat index is out of bounds, which the `Option` models
(`none` = panic). -/
def Engine.Matrix7D.get (m : Engine.Matrix7D) (i j d : ℕ) : Option ℚ :=
  if i < m.size ∧ j < m.size ∧ d < 7 then
    m.data.get? (i * m.size * 7 + j * 7 + d)
  else
    some 0

/-- Rust `Matrix7D::set` (`mesh.rs` lines 97-101): out-of-range indices leave
the matrix unchanged; in range the flat slot is written (`none` models
the panic of an out-of-bounds write). -/
def Engine.Matrix7D.set (m : Engine.Matrix7D) (i j d : ℕ) (value : ℚ) :
    Option Engine.Matrix7D :=
  if i < m.size ∧ j < m.size ∧ d < 7 then
    if i * m.size * 7 + j * 7 + d < m.data.length then
      some { m with data := m.data.set (i * m.size * 7 + j * 7 + d) value }
    else
      none
  else
    some m

/-- Rust `Z3Mesh` from `crsm7-engine/src/mesh.rs` (the stateless `duality`
member is omitted). -/
structure Engine.Z3Mesh where
  vertices : List Engine.Gene
  weights : Engine.Matrix7D
  edges : List Engine.Edge
deriving DecidableEq, Repr

/-- Rust `Z3Mesh::metric_internal` (`mesh.rs` lines 175-190): `f64::MAX` on
an out-of-range index, otherwise the Euclidean metric over the seven
components of `as_array` (the square root is the libm call). -/
def Engine.Z3Mesh.metric_internal (ops : FloatOps) (vertices : List Engine.Gene)
    (i j : ℕ) : ℚ :=
  match vertices.get? i, vertices.get? j with
  | some gi, some gj =>
      let a := gi.state.as_array
      let b := gj.state.as_array
      ops.fsqrt (∑ d : Fin 7, (a d - b d) * (a d - b d))
  | _, _ => F64_MAX

/-- Rust `Z3Mesh::metric` (`mesh.rs` lines 194-196). -/
def Engine.Z3Mesh.metric (ops : FloatOps) (m : Engine.Z3Mesh) (i j : ℕ) : ℚ :=
  Engine.Z3Mesh.metric_internal ops m.vertices i j

/-- The per-edge update of `Z3Mesh::evolve` (`mesh.rs` lines 224-234):
decay `gamma`, overwrite `weight` with the precomputed gradient, latch
`bound` once `gamma < 0.01`. -/
def Engine.Z3Mesh.evolveEdge (decay : ℚ) (p : Engine.Edge × ℚ) : Engine.Edge :=
  let e := p.1
  let gamma1 := e.gamma * decay
  { e with gamma := gamma1, weight := p.2,
           bound := e.bound || decide (gamma1 < 1 / 100) }

/-- Rust `Z3Mesh::evolve` (`mesh.rs` lines 211-235): evolve every vertex
state, then compute the gradients (edge metrics) from the updated
vertices, then rewrite every edge from its gradient. -/
def Engine.Z3Mesh.evolve (ops : FloatOps) (dt : ℚ) (m : Engine.Z3Mesh) :
    Engine.Z3Mesh :=
  let vs := m.vertices.map fun g =>
    { g with state := Engine.CRSM7State.evolve ops dt g.state }
  let gradients := m.edges.map fun e =>
    Engine.Z3Mesh.metric_internal ops vs e.from_ e.to_
  let decay := ops.fexp (-K_GAMMA * dt)
  let edges := (m.edges.zip gradients).map (Engine.Z3Mesh.evolveEdge decay)
  { m with vertices := vs, edges := edges }

/-- The edge-location predicate of `Z3Mesh::collapse` (`mesh.rs` lines
240-242): an edge between `i` and `j` in either direction. -/
def Engine.Z3Mesh.edgeMatches (i j : ℕ) (e : Engine.Edge) : Bool :=
  (e.from_ == i && e.to_ == j) || (e.from_ == j && e.to_ == i)

/-- The vertex rewrite performed by `Z3Mesh::collapse` (`mesh.rs` lines
252-266): overwrite `lambda`/`phi` with the pairwise averages, recompute
emergence, set `bound` (the sequential field writes of the Rust loop are
collapsed into one record update per vertex). -/
def Engine.Z3Mesh.collapseVertex (avg_lambda avg_phi : ℚ) (g : Engine.Gene) :
    Engine.Gene :=
  { g with bound := true,
           state := Engine.CRSM7State.compute_emergence
             { g.state with lambda := avg_lambda, phi := avg_phi } }

/-- Rust `Z3Mesh::collapse` (`mesh.rs` lines 238-270). -/
def Engine.Z3Mesh.collapse (m : Engine.Z3Mesh) (i j : ℕ) : Engine.Z3Mesh :=
  match m.edges.findIdx? (Engine.Z3Mesh.edgeMatches i j) with
  | none => m
  | some idx =>
    match m.edges.get? idx with
    | none => m
    | some e =>
      if e.gamma < 1 / 100 then
        let edges1 := m.edges.set idx { e with bound := true }
        if i < m.vertices.length ∧ j < m.vertices.length then
          match m.vertices.get? i, m.vertices.get? j with
          | some vi, some vj =>
            let avg_lambda := (vi.state.lambda + vj.state.lambda) / 2
            let avg_phi := (vi.state.phi + vj.state.phi) / 2
            { m with edges := edges1,
                     vertices :=
                       (m.vertices.set i
                         (Engine.Z3Mesh.collapseVertex avg_lambda avg_phi vi)).set j
                         (Engine.Z3Mesh.collapseVertex avg_lambda avg_phi vj) }
          | _, _ => { m with edges := edges1 }
        else
          { m with edges := edges1 }
      else m

/-- Rust `Z3Mesh::total_decoherence` (`mesh.rs` lines 291-293): sum of all
edge `gamma` values. -/
def Engine.Z3Mesh.total_decoherence (m : Engine.Z3Mesh) : ℚ :=
  (m.edges.map Engine.Edge.gamma).sum

/-! ## runtime crate: `manifold/crsm7.rs` -/

/-- Rust `CRSM7State` from `runtime/src/manifold/crsm7.rs` (the polarity
field is named `rho` here). -/
structure Runtime.CRSM7State where
  lambda : ℚ
  gamma : ℚ
  phi : ℚ
  xi : ℚ
  rho : ℚ
  theta : ℚ
  tau : ℚ
deriving DecidableEq, Repr

/-- Rust `CRSM7State::compute_emergence` (`manifold/crsm7.rs` lines 100-106). -/
def Runtime.CRSM7State.compute_emergence (s : Runtime.CRSM7State) : Runtime.CRSM7State :=
  if s.gamma > GAMMA_TOLERANCE then
    { s with xi := s.lambda * s.phi / s.gamma }
  else
    { s with xi := EMERGENCE_MAX }

/-- Rust `CRSM7State::new` (`manifold/crsm7.rs` lines 63-75): the default
state Λ=0.869, Γ=0.012, Φ=7.6901, ρ=1, θ=51.843, τ=0 with emergence
computed. -/
def Runtime.CRSM7State.new : Runtime.CRSM7State :=
  Runtime.CRSM7State.compute_emergence
    { lambda := 869 / 1000, gamma := 12 / 1000, phi := 76901 / 10000, xi := 0,
      rho := 1, theta := THETA_CRITICAL, tau := 0 }

/-- Rust `CRSM7State::with_values` (`manifold/crsm7.rs` lines 78-97). -/
def Runtime.CRSM7State.with_values (lambda gamma phi rho theta tau : ℚ) :
    Runtime.CRSM7State :=
  Runtime.CRSM7State.compute_emergence
    { lambda := lambda, gamma := gamma, phi := phi, xi := 0,
      rho := rho, theta := theta, tau := tau }

/-- Rust `CRSM7State::hamiltonian` (`manifold/crsm7.rs` lines 110-116):
`lambda - gamma + sin(to_radians(theta))`. -/
def Runtime.CRSM7State.hamiltonian (ops : FloatOps) (s : Runtime.CRSM7State) : ℚ :=
  s.lambda - s.gamma + ops.fsin (ops.torad s.theta)

/-- Rust `CRSM7State::evolve` (`manifold/crsm7.rs` lines 120-139): the
Hamiltonian is read from the pre-update state; the information step
reads the already-updated, clamped `lambda`. -/
def Runtime.CRSM7State.evolve (ops : FloatOps) (dt : ℚ) (s : Runtime.CRSM7State) :
    Runtime.CRSM7State :=
  let h := Runtime.CRSM7State.hamiltonian ops s
  let tau1 := s.tau + dt
  let gamma1 := max (s.gamma * ops.fexp (-dt)) GAMMA_TOLERANCE
  let lambda1 := min (s.lambda + h * dt * (1 / 100)) (999 / 1000)
  let phi1 := s.phi + (1 / 100) * lambda1 * dt
  Runtime.CRSM7State.compute_emergence
    { s with lambda := lambda1, gamma := gamma1, phi := phi1, tau := tau1 }

/-- Rust `CRSM7State::check_sovereignty` (`manifold/crsm7.rs` lines 158-160):
`xi >= 8.0 && gamma <= GAMMA_TOLERANCE`. -/
def Runtime.CRSM7State.check_sovereignty (s : Runtime.CRSM7State) : Bool :=
  decide (s.xi ≥ 8) && decide (s.gamma ≤ GAMMA_TOLERANCE)

/-- Rust `CRSM7State::compute_sovereignty` (`manifold/crsm7.rs` lines 163-166). -/
def Runtime.CRSM7State.compute_sovereignty (s : Runtime.CRSM7State) : ℚ :=
  s.lambda * (1 - s.gamma) * min (s.xi / EMERGENCE_THRESHOLD) 1

/-! ## runtime crate: `dual_runtime.rs` and `organism/executor.rs` -/

/-- Rust `Complex` from `runtime/src/dual_runtime.rs`. -/
structure Runtime.Complex where
  re : ℚ
  im : ℚ
deriving DecidableEq, Repr

/-- Rust `Complex::magnitude`: `sqrt(re² + im²)` (libm sqrt). -/
def Runtime.Complex.magnitude (ops : FloatOps) (c : Runtime.Complex) : ℚ :=
  ops.fsqrt (c.re * c.re + c.im * c.im)

/-- Rust `Complex::multiply`. -/
def Runtime.Complex.multiply (c other : Runtime.Complex) : Runtime.Complex :=
  { re := c.re * other.re - c.im * other.im,
    im := c.re * other.im + c.im * other.re }

/-- Rust `Complex::scale`. -/
def Runtime.Complex.scale (c : Runtime.Complex) (factor : ℚ) : Runtime.Complex :=
  { re := c.re * factor, im := c.im * factor }

/-- Rust `Complex::exp_i`: `(cos θ, sin θ)` (libm cos/sin). -/
def Runtime.Complex.exp_i (ops : FloatOps) (theta : ℚ) : Runtime.Complex :=
  { re := ops.fcos theta, im := ops.fsin theta }

/-- Rust `Z3MeshWeights` from `runtime/src/dual_runtime.rs`. -/
structure Runtime.Z3MeshWeights where
  weights : List ℚ
deriving DecidableEq, Repr

/-- Rust `Z3MeshWeights::compute_weight` (`dual_runtime.rs` lines 106-122):
the SUM of squared component differences (no square root). -/
def Runtime.Z3MeshWeights.compute_weight (si sj : Runtime.CRSM7State) : ℚ :=
  (si.lambda - sj.lambda) ^ 2 + (si.gamma - sj.gamma) ^ 2 + (si.phi - sj.phi) ^ 2
    + (si.xi - sj.xi) ^ 2 + (si.rho - sj.rho) ^ 2 + (si.theta - sj.theta) ^ 2
    + (si.tau - sj.tau) ^ 2

/-- Rust `Gene` from `runtime/src/organism/executor.rs`. -/
structure Runtime.Gene where
  id : String
  name : String
  state : Runtime.CRSM7State
  bound : Bool
deriving DecidableEq, Repr

/-- Rust `Organism` from `runtime/src/organism/executor.rs`. -/
structure Runtime.Organism where
  name : String
  genes : List Runtime.Gene
  state : Runtime.CRSM7State
  operators : List String
deriving DecidableEq, Repr

/-- Rust `Manifold` from `runtime/src/dual_runtime.rs`. -/
structure Runtime.Manifold where
  name : String
  state : Runtime.CRSM7State
deriving DecidableEq, Repr

/-- Rust `DualRuntime` from `runtime/src/dual_runtime.rs`. -/
structure Runtime.DualRuntime where
  psi : Runtime.Complex
  state : Runtime.CRSM7State
  organism : Runtime.Organism
  manifold : Runtime.Manifold
  sealed : Bool
  mesh_weights : Runtime.Z3MeshWeights
deriving DecidableEq, Repr

/-- Rust `DualRuntime::check_sovereignty` (`dual_runtime.rs` lines 232-234):
`xi >= 8.0 && gamma <= GAMMA_TOLERANCE`. -/
def Runtime.DualRuntime.check_sovereignty (rt : Runtime.DualRuntime) : Bool :=
  decide (rt.state.xi ≥ 8) && decide (rt.state.gamma ≤ GAMMA_TOLERANCE)

/-- Rust `DualRuntime::seal` (`dual_runtime.rs` lines 237-241): sets `sealed`
only when `check_sovereignty` holds. -/
def Runtime.DualRuntime.seal (rt : Runtime.DualRuntime) : Runtime.DualRuntime :=
  if rt.check_sovereignty then { rt with sealed := true } else rt

/-- Rust `DualRuntime::compute_sovereignty` (`dual_runtime.rs` lines 264-267). -/
def Runtime.DualRuntime.compute_sovereignty (rt : Runtime.DualRuntime) : ℚ :=
  rt.state.lambda * (1 - rt.state.gamma) * min (rt.state.xi / EMERGENCE_THRESHOLD) 1

/-- Rust `DualRuntime::update_mesh_weights` (`dual_runtime.rs` lines 199-206):
for each gene, push the computed weight while the weight vector is
shorter than the gene list (the guard is re-read every iteration, as in
the Rust loop). -/
def Runtime.DualRuntime.update_mesh_weights (rt : Runtime.DualRuntime) :
    Runtime.Z3MeshWeights :=
  rt.organism.genes.foldl
    (fun w g =>
      let weight := Runtime.Z3MeshWeights.compute_weight rt.state g.state
      if w.weights.length < rt.organism.genes.length then
        { w with weights := w.weights ++ [weight] }
      else w)
    rt.mesh_weights

/-- Rust `DualRuntime::check_collapse` (`dual_runtime.rs` lines 213-225):
when `gamma` is within 10× the tolerance, replace `psi.re` by its Π⁺
projection; then seal if `lambda*phi > 10` and sovereignty holds. -/
def Runtime.DualRuntime.check_collapse (rt : Runtime.DualRuntime) :
    Runtime.DualRuntime :=
  let rt1 :=
    if rt.state.gamma ≤ GAMMA_TOLERANCE * 10 then
      { rt with psi := { rt.psi with re := (Runtime.bifurcate rt.psi.re).1 } }
    else rt
  let lambda_phi := rt1.state.lambda * rt1.state.phi
  if lambda_phi > 10 ∧ rt1.check_sovereignty then rt1.seal else rt1

/-- Rust `DualRuntime::step` (`dual_runtime.rs` lines 167-196): an immediate
return when `sealed`; otherwise phase-rotate and renormalize `psi`,
evolve the state, update mesh weights, and check collapse. -/
def Runtime.DualRuntime.step (ops : FloatOps) (dt : ℚ) (rt : Runtime.DualRuntime) :
    Runtime.DualRuntime :=
  if rt.sealed then rt
  else
    let h := Runtime.CRSM7State.hamiltonian ops rt.state
    let evolution_phase := h * dt
    let evolution_factor := Runtime.Complex.exp_i ops evolution_phase
    let psi1 := rt.psi.multiply evolution_factor
    let mag := psi1.magnitude ops
    let psi2 := if mag > 1 / 10 ^ 10 then psi1.scale (1 / mag) else psi1
    let state1 := Runtime.CRSM7State.evolve ops dt rt.state
    let rt1 := { rt with psi := psi2, state := state1 }
    let rt2 := { rt1 with mesh_weights := rt1.update_mesh_weights }
    rt2.check_collapse

/-- Rust `DualRuntime::run` (`dual_runtime.rs` lines 270-277): repeatedly
step, breaking as soon as `sealed` is observed at the top of the loop. -/
def Runtime.DualRuntime.run (ops : FloatOps) (dt : ℚ) :
    ℕ → Runtime.DualRuntime → Runtime.DualRuntime
  | 0, rt => rt
  | n + 1, rt =>
    if rt.sealed then rt
    else Runtime.DualRuntime.run ops dt n (Runtime.DualRuntime.step ops dt rt)

/-- Rust `DualRuntime::run_to_sovereignty` (`dual_runtime.rs` lines 280-288):
step up to `max_steps` times, returning `true` as soon as `sealed`
holds after a step; exhausting the budget returns `false`. -/
def Runtime.DualRuntime.run_to_sovereignty (ops : FloatOps) (dt : ℚ) :
    ℕ → Runtime.DualRuntime → Runtime.DualRuntime × Bool
  | 0, rt => (rt, false)
  | n + 1, rt =>
    let rt1 := Runtime.DualRuntime.step ops dt rt
    if rt1.sealed then (rt1, true)
    else Runtime.DualRuntime.run_to_sovereignty ops dt n rt1

/-! ## Helper lemmas -/

/-- Rust `compute_emergence` only rewrites the `xi` field: `lambda` is kept. -/
theorem Engine.CRSM7State.compute_emergence_lambda (s : Engine.CRSM7State) :
    s.compute_emergence.lambda = s.lambda := by
  unfold Engine.CRSM7State.compute_emergence; split <;> rfl

/-- Rust `compute_emergence` keeps `gamma`. -/
theorem Engine.CRSM7State.compute_emergence_gamma (s : Engine.CRSM7State) :
    s.compute_emergence.gamma = s.gamma := by
  unfold Engine.CRSM7State.compute_emergence; split <;> rfl

/-- Rust `compute_emergence` keeps `phi`. -/
theorem Engine.CRSM7State.compute_emergence_phi (s : Engine.CRSM7State) :
    s.compute_emergence.phi = s.phi := by
  unfold Engine.CRSM7State.compute_emergence; split <;> rfl

/-- Rust `compute_emergence` keeps `rho_polarity`. -/
theorem Engine.CRSM7State.compute_emergence_rho (s : Engine.CRSM7State) :
    s.compute_emergence.rho_polarity = s.rho_polarity := by
  unfold Engine.CRSM7State.compute_emergence; split <;> rfl

/-- Rust `compute_emergence` keeps `theta`. -/
theorem Engine.CRSM7State.compute_emergence_theta (s : Engine.CRSM7State) :
    s.compute_emergence.theta = s.theta := by
  unfold Engine.CRSM7State.compute_emergence; split <;> rfl

/-- Rust `compute_emergence` keeps `tau`. -/
theorem Engine.CRSM7State.compute_emergence_tau (s : Engine.CRSM7State) :
    s.compute_emergence.tau = s.tau := by
  unfold Engine.CRSM7State.compute_emergence; split <;> rfl

/-- A concrete instantiation of the abstract libm record, used to
evaluate the model on closed inputs: every primitive returns `1`. -/
def constOps : FloatOps :=
  { fexp := fun _ => 1, fsqrt := fun _ => 1, fsin := fun _ => 1,
    fcos := fun _ => 1, fpow := fun _ _ => 1, torad := fun _ => 1 }

/-! ## C9: projector completeness -/

/-- C9: for every finite x, `projector_plus(x) + projector_minus(x)`
equals `x` within 1e-10 absolute error, for both the engine's
`DualityOperator` (any operator value) and the runtime's free
projectors, each built as `(I ± J)/2` from the involution `J(x) = -x`. -/
theorem C9_projector_completeness (op : Engine.DualityOperator) (x : ℚ) :
    |op.pi_plus x + op.pi_minus x - x| ≤ 1 / 10 ^ 10
    ∧ |Runtime.pi_plus x + Runtime.pi_minus x - x| ≤ 1 / 10 ^ 10
    ∧ op.j_involution (op.j_involution x) = x
    ∧ Runtime.involution_j (Runtime.involution_j x) = x := by
  refine ⟨?_, ?_, by simp [Engine.DualityOperator.j_involution], by
    simp [Runtime.involution_j]⟩
  · have : op.pi_plus x + op.pi_minus x - x = 0 := by
      simp [Engine.DualityOperator.pi_plus, Engine.DualityOperator.pi_minus,
        Engine.DualityOperator.j_involution]
      ring
    rw [this]; norm_num
  · have : Runtime.pi_plus x + Runtime.pi_minus x - x = 0 := by
      simp [Runtime.pi_plus, Runtime.pi_minus, Runtime.involution_j]
      ring
    rw [this]; norm_num

/-! ## C7: the emergence formula and its cap -/

/-- C7: `compute_emergence` (engine and runtime copies) sets Ξ to
`ΛΦ/Γ` when `Γ > 1e-9` and pins it to the finite cap `1e12` otherwise
(so the result is a finite rational, never infinity or NaN); at
Λ=0.9, Γ=0.01, Φ=10.0 it yields Ξ=900.0 within 1e-6. -/
theorem C7_emergence_formula (s : Engine.CRSM7State) (t : Runtime.CRSM7State) :
    (s.gamma > GAMMA_TOLERANCE →
      s.compute_emergence.xi = s.lambda * s.phi / s.gamma)
    ∧ (¬ s.gamma > GAMMA_TOLERANCE → s.compute_emergence.xi = EMERGENCE_MAX)
    ∧ (t.gamma > GAMMA_TOLERANCE →
      t.compute_emergence.xi = t.lambda * t.phi / t.gamma)
    ∧ (¬ t.gamma > GAMMA_TOLERANCE → t.compute_emergence.xi = EMERGENCE_MAX)
    ∧ |(Engine.CRSM7State.new (9 / 10) (1 / 100) 10 1 THETA_CRITICAL 0).xi - 900|
        ≤ 1 / 10 ^ 6 := by
  refine ⟨?_, ?_, ?_, ?_, ?_⟩
  · intro h
    unfold Engine.CRSM7State.compute_emergence
    rw [if_pos h]
  · intro h
    unfold Engine.CRSM7State.compute_emergence
    rw [if_neg h]
  · intro h
    unfold Runtime.CRSM7State.compute_emergence
    rw [if_pos h]
  · intro h
    unfold Runtime.CRSM7State.compute_emergence
    rw [if_neg h]
  · norm_num [Engine.CRSM7State.new, Engine.CRSM7State.compute_emergence,
      GAMMA_TOLERANCE]

/-- C7 witness: the theorem applied at the concrete states
Λ=0.9, Γ=0.01, Φ=10 (above the tolerance) and Γ=1e-10 (below it). -/
theorem C7_emergence_formula_witness :
    (Engine.CRSM7State.compute_emergence
        { lambda := 9 / 10, gamma := 1 / 100, phi := 10, xi := 0,
          rho_polarity := 1, theta := THETA_CRITICAL, tau := 0 }).xi
      = (9 / 10) * 10 / (1 / 100)
    ∧ (Runtime.CRSM7State.compute_emergence
        { lambda := 9 / 10, gamma := 1 / 10 ^ 10, phi := 10, xi := 0,
          rho := 1, theta := THETA_CRITICAL, tau := 0 }).xi = EMERGENCE_MAX := by
  constructor
  · exact (C7_emergence_formula
      { lambda := 9 / 10, gamma := 1 / 100, phi := 10, xi := 0,
        rho_polarity := 1, theta := THETA_CRITICAL, tau := 0 }
      { lambda := 9 / 10, gamma := 1 / 10 ^ 10, phi := 10, xi := 0,
        rho := 1, theta := THETA_CRITICAL, tau := 0 }).1
      (by norm_num [GAMMA_TOLERANCE])
  · exact (C7_emergence_formula
      { lambda := 9 / 10, gamma := 1 / 100, phi := 10, xi := 0,
        rho_polarity := 1, theta := THETA_CRITICAL, tau := 0 }
      { lambda := 9 / 10, gamma := 1 / 10 ^ 10, phi := 10, xi := 0,
        rho := 1, theta := THETA_CRITICAL, tau := 0 }).2.2.2.1
      (by norm_num [GAMMA_TOLERANCE])

/-! ## C1: `check_sovereignty` -/

/-- C1 (amended): the runtime's two `check_sovereignty` implementations
(`DualRuntime::check_sovereignty` and the runtime manifold
`CRSM7State::check_sovereignty`) return true iff `Ξ ≥ 8.0` AND
`Γ ≤ 1e-9` — a conjunction, both required.  (The crsm7-engine's
`CRSM7State::check_sovereignty` does not satisfy this; see the
counterexample.) -/
theorem C1_runtime_check_sovereignty (s : Runtime.CRSM7State)
    (rt : Runtime.DualRuntime) :
    (Runtime.CRSM7State.check_sovereignty s = true
      ↔ s.xi ≥ 8 ∧ s.gamma ≤ GAMMA_TOLERANCE)
    ∧ (Runtime.DualRuntime.check_sovereignty rt = true
      ↔ rt.state.xi ≥ 8 ∧ rt.state.gamma ≤ GAMMA_TOLERANCE) := by
  constructor
  · simp [Runtime.CRSM7State.check_sovereignty]
  · simp [Runtime.DualRuntime.check_sovereignty]

/-- C1 counterexample: the crsm7-engine `CRSM7State::check_sovereignty`
is `Ω_sov ≥ 0.97 && (|Γ| ≤ 1e-6 || Ξ ≥ 7)`, not the claimed
conjunction.  At Λ=0.99, Γ=0.001, Φ=10 it returns true although
Γ = 0.001 exceeds every tolerance in the code (1e-9 and 1e-6); at
Λ=0.5, Γ=1e-10, Φ=10 it returns false although Ξ = 1e12 ≥ 8 and
Γ ≤ 1e-9 both hold. -/
theorem C1_engine_check_sovereignty_counterexample :
    (Engine.CRSM7State.new (99 / 100) (1 / 1000) 10 1 THETA_CRITICAL 0).check_sovereignty
        = true
    ∧ ¬ (Engine.CRSM7State.new (99 / 100) (1 / 1000) 10 1 THETA_CRITICAL 0).gamma
        ≤ GAMMA_TOLERANCE
    ∧ ¬ (Engine.CRSM7State.new (99 / 100) (1 / 1000) 10 1 THETA_CRITICAL 0).gamma
        ≤ 1 / 10 ^ 6
    ∧ (Engine.CRSM7State.new (1 / 2) (1 / 10 ^ 10) 10 1 THETA_CRITICAL 0).check_sovereignty
        = false
    ∧ (Engine.CRSM7State.new (1 / 2) (1 / 10 ^ 10) 10 1 THETA_CRITICAL 0).xi ≥ 8
    ∧ (Engine.CRSM7State.new (1 / 2) (1 / 10 ^ 10) 10 1 THETA_CRITICAL 0).gamma
        ≤ GAMMA_TOLERANCE := by
  refine ⟨?_, ?_, ?_, ?_, ?_, ?_⟩ <;>
    norm_num [Engine.CRSM7State.new, Engine.CRSM7State.compute_emergence,
      Engine.CRSM7State.check_sovereignty, Engine.CRSM7State.compute_sovereignty,
      GAMMA_TOLERANCE, EMERGENCE_THRESHOLD, EMERGENCE_MAX, OMEGA_SOV_THRESHOLD]

/-! ## C6: `evolve(0)` -/

/-- C6 (amended): for every state within the enforced ranges
(Λ ≤ 0.999 and Γ ≥ 1e-9), `evolve(0)` is exactly the emergence
recompute: every other field keeps its prior value.  (Outside those
ranges the clamps fire; see the counterexample.)  `ops.fexp 0 = 1` is
the defining value of the libm exponential at zero. -/
theorem C6_evolve_zero (ops : FloatOps) (s : Engine.CRSM7State)
    (hexp : ops.fexp 0 = 1) (hl : s.lambda ≤ 999 / 1000)
    (hg : GAMMA_TOLERANCE ≤ s.gamma) :
    Engine.CRSM7State.evolve ops 0 s = s.compute_emergence := by
  unfold Engine.CRSM7State.evolve
  norm_num [hexp, min_eq_left hl, max_eq_left hg]

/-- C6 witness: the theorem at the default-constants state
Λ=0.869, Γ=0.012, Φ=7.6901 with a concrete libm record. -/
theorem C6_evolve_zero_witness :
    Engine.CRSM7State.evolve constOps 0
        { lambda := 869 / 1000, gamma := 12 / 1000, phi := 76901 / 10000, xi := 0,
          rho_polarity := 1, theta := THETA_CRITICAL, tau := 0 }
      = Engine.CRSM7State.compute_emergence
        { lambda := 869 / 1000, gamma := 12 / 1000, phi := 76901 / 10000, xi := 0,
          rho_polarity := 1, theta := THETA_CRITICAL, tau := 0 } :=
  C6_evolve_zero constOps _ rfl (by norm_num) (by norm_num [GAMMA_TOLERANCE])

/-- C6 counterexample: the state built by `CRSM7State::new(0.5, 0.0,
1.0, 1.0, θ, 0.0)` has Γ = 0; `evolve(0)` clamps Γ up to the 1e-9
floor, so decoherence does not hold its prior value. -/
theorem C6_evolve_zero_counterexample :
    (Engine.CRSM7State.new (1 / 2) 0 1 1 THETA_CRITICAL 0).gamma = 0
    ∧ (Engine.CRSM7State.evolve constOps 0
        (Engine.CRSM7State.new (1 / 2) 0 1 1 THETA_CRITICAL 0)).gamma
      = GAMMA_TOLERANCE
    ∧ (GAMMA_TOLERANCE : ℚ) ≠ 0 := by
  refine ⟨?_, ?_, by norm_num [GAMMA_TOLERANCE]⟩
  · norm_num [Engine.CRSM7State.new, Engine.CRSM7State.compute_emergence,
      GAMMA_TOLERANCE]
  · norm_num [Engine.CRSM7State.new, Engine.CRSM7State.compute_emergence,
      Engine.CRSM7State.evolve, GAMMA_TOLERANCE, constOps]

/-! ## C5: the Hamiltonian evolution path vs `evolve` -/

/-- C5 (amended): for every starting state and dt, the Hamiltonian path
(`compute_derivative` + `evolve_state`) produces the same coherence,
decoherence, and epoch as `CRSM7State::evolve(dt)` — but NOT the same
information: `evolve` feeds the already-updated coherence into the
information increment while the derivative uses the pre-update
coherence (see the counterexample), so emergence differs as well. -/
theorem C5_hamiltonian_path_agreement (h : Engine.CRSMHamiltonian)
    (ops : FloatOps) (dt : ℚ) (s : Engine.CRSM7State) :
    (h.evolve_state ops dt s).lambda = (Engine.CRSM7State.evolve ops dt s).lambda
    ∧ (h.evolve_state ops dt s).gamma = (Engine.CRSM7State.evolve ops dt s).gamma
    ∧ (h.evolve_state ops dt s).tau = (Engine.CRSM7State.evolve ops dt s).tau := by
  unfold Engine.CRSMHamiltonian.evolve_state Engine.CRSM7State.evolve
    Engine.CRSMHamiltonian.compute_derivative Engine.CRSM7State.new
  refine ⟨?_, ?_, ?_⟩ <;>
    simp [Engine.CRSM7State.compute_emergence_lambda,
      Engine.CRSM7State.compute_emergence_gamma,
      Engine.CRSM7State.compute_emergence_tau, GAMMA_TOLERANCE]

/-- C5 counterexample: at Λ=0.5, Γ=0.5, Φ=0 with dt=1 (and a libm
record with `powf ≡ 1`), `evolve` adds `0.01·0.55·1 = 0.0055` to Φ
while the Hamiltonian path adds `0.01·0.5·1 = 0.005`: the information
values differ, refuting the claimed equality on `information`. -/
theorem C5_hamiltonian_path_counterexample :
    (Engine.CRSMHamiltonian.evolve_state { gradient_coupling := 1, torsion_coupling := 1 }
        constOps 1 { lambda := 1 / 2, gamma := 1 / 2, phi := 0, xi := 0,
                     rho_polarity := 1, theta := THETA_CRITICAL, tau := 0 }).phi
      = 5 / 1000
    ∧ (Engine.CRSM7State.evolve constOps 1
        { lambda := 1 / 2, gamma := 1 / 2, phi := 0, xi := 0,
          rho_polarity := 1, theta := THETA_CRITICAL, tau := 0 }).phi
      = 55 / 10000
    ∧ (5 / 1000 : ℚ) ≠ 55 / 10000 := by
  refine ⟨?_, ?_, by norm_num⟩
  · simp only [Engine.CRSMHamiltonian.evolve_state,
      Engine.CRSMHamiltonian.compute_derivative, Engine.CRSM7State.new,
      Engine.CRSM7State.compute_emergence_phi]
    norm_num [constOps]
  · simp only [Engine.CRSM7State.evolve, Engine.CRSM7State.compute_emergence_phi]
    norm_num [constOps, min_def]

/-! ## C2: sealing is terminal -/

/-- C2: once `sealed` is true, `step(dt)`, `run(steps, dt)` and
`run_to_sovereignty(max_steps, dt)` leave the whole runtime record —
psi, every CRSM7 state field, the organism, the manifold, the mesh
weights and the sealed flag — unchanged, for every dt and step count. -/
theorem C2_sealed_is_noop (ops : FloatOps) (dt : ℚ) (n : ℕ)
    (rt : Runtime.DualRuntime) (hs : rt.sealed = true) :
    Runtime.DualRuntime.step ops dt rt = rt
    ∧ Runtime.DualRuntime.run ops dt n rt = rt
    ∧ (Runtime.DualRuntime.run_to_sovereignty ops dt n rt).1 = rt := by
  have hstep : Runtime.DualRuntime.step ops dt rt = rt := by
    unfold Runtime.DualRuntime.step
    rw [hs]
    rfl
  refine ⟨hstep, ?_, ?_⟩
  · cases n with
    | zero => rfl
    | succ k =>
      unfold Runtime.DualRuntime.run
      rw [hs]
      rfl
  · cases n with
    | zero => rfl
    | succ k =>
      simp [Runtime.DualRuntime.run_to_sovereignty, hstep, hs]

/-- C2 witness: a concrete sealed runtime is left unchanged by `step`,
`run(5, 1)` and `run_to_sovereignty(5, 1)`. -/
theorem C2_sealed_is_noop_witness :
    Runtime.DualRuntime.step constOps 1
        { psi := { re := 1, im := 0 }, state := Runtime.CRSM7State.new,
          organism := { name := "CRSM7_Z3MESH", genes := [],
                        state := Runtime.CRSM7State.new, operators := [] },
          manifold := { name := "CRSM7", state := Runtime.CRSM7State.new },
          sealed := true, mesh_weights := { weights := List.replicate 49 0 } }
      = { psi := { re := 1, im := 0 }, state := Runtime.CRSM7State.new,
          organism := { name := "CRSM7_Z3MESH", genes := [],
                        state := Runtime.CRSM7State.new, operators := [] },
          manifold := { name := "CRSM7", state := Runtime.CRSM7State.new },
          sealed := true, mesh_weights := { weights := List.replicate 49 0 } } :=
  (C2_sealed_is_noop constOps 1 5
    { psi := { re := 1, im := 0 }, state := Runtime.CRSM7State.new,
      organism := { name := "CRSM7_Z3MESH", genes := [],
                    state := Runtime.CRSM7State.new, operators := [] },
      manifold := { name := "CRSM7", state := Runtime.CRSM7State.new },
      sealed := true, mesh_weights := { weights := List.replicate 49 0 } }
    rfl).1

/-! ## C10: `Matrix7D` accessors are total -/

/-- C10: under the `Matrix7D::new` size invariant
`data.len() == size*size*7`, `get` with any out-of-range index returns
0.0 and `set` with any out-of-range index leaves the matrix unchanged;
for in-range indices the flat index `i*size*7 + j*7 + d` is within the
bounds of the data vector, so both accessors succeed (no panic: the
`Option` result is always `some`). -/
theorem C10_matrix7d_total (m : Engine.Matrix7D)
    (hlen : m.data.length = m.size * m.size * 7) (i j d : ℕ) (v : ℚ) :
    (¬ (i < m.size ∧ j < m.size ∧ d < 7) →
      m.get i j d = some 0 ∧ m.set i j d v = some m)
    ∧ ((i < m.size ∧ j < m.size ∧ d < 7) →
      i * m.size * 7 + j * 7 + d < m.data.length
      ∧ (∃ x, m.get i j d = some x)
      ∧ (∃ m2, m.set i j d v = some m2)) := by
  constructor
  · intro hout
    constructor
    · unfold Engine.Matrix7D.get
      rw [if_neg hout]
    · unfold Engine.Matrix7D.set
      rw [if_neg hout]
  · rintro ⟨hi, hj, hd⟩
    have hidx : i * m.size * 7 + j * 7 + d < m.data.length := by
      rw [hlen]
      have h1 : i * m.size * 7 + j * 7 + d + 1 ≤ i * m.size * 7 + (j + 1) * 7 := by
        nlinarith
      have h2 : i * m.size * 7 + (j + 1) * 7 ≤ i * m.size * 7 + m.size * 7 := by
        have : j + 1 ≤ m.size := hj
        nlinarith
      have h3 : i * m.size * 7 + m.size * 7 = (i + 1) * (m.size * 7) := by ring
      have h4 : (i + 1) * (m.size * 7) ≤ m.size * (m.size * 7) :=
        Nat.mul_le_mul_right _ hi
      have h5 : m.size * (m.size * 7) = m.size * m.size * 7 := by ring
      omega
    refine ⟨hidx, ?_, ?_⟩
    · unfold Engine.Matrix7D.get
      rw [if_pos ⟨hi, hj, hd⟩, List.get?_eq_get hidx]
      exact ⟨_, rfl⟩
    · unfold Engine.Matrix7D.set
      rw [if_pos ⟨hi, hj, hd⟩, if_pos hidx]
      exact ⟨_, rfl⟩

/-- C10 witness: on a freshly allocated 2-vertex matrix, out-of-range
reads return 0 and an in-range flat index is within bounds. -/
theorem C10_matrix7d_total_witness :
    (Engine.Matrix7D.new 2).get 5 0 0 = some 0
    ∧ 1 * (Engine.Matrix7D.new 2).size * 7 + 1 * 7 + 6
        < (Engine.Matrix7D.new 2).data.length := by
  constructor
  · exact (((C10_matrix7d_total (Engine.Matrix7D.new 2)
      (by simp [Engine.Matrix7D.new]) 5 0 0 0).1) (by decide)).1
  · exact ((C10_matrix7d_total (Engine.Matrix7D.new 2)
      (by simp [Engine.Matrix7D.new]) 1 1 6 0).2 (by decide)).1

/-! ## C4 and C8: mesh `evolve` structure -/

/-- Mapping over a list zipped with its own image is a single map. -/
theorem list_zip_map_map {α β γ : Type _} (l : List α) (f : α → β) (F : α × β → γ) :
    (l.zip (l.map f)).map F = l.map fun a => F (a, f a) := by
  induction l with
  | nil => rfl
  | cons a t ih => simp [List.zip_cons_cons, ih]

/-- Rust `Z3Mesh::evolve` leaves the vertex list as the pointwise-evolved
original vertex list. -/
theorem Engine.Z3Mesh.evolve_vertices_eq (ops : FloatOps) (dt : ℚ)
    (m : Engine.Z3Mesh) :
    (Engine.Z3Mesh.evolve ops dt m).vertices
      = m.vertices.map fun g =>
          { g with state := Engine.CRSM7State.evolve ops dt g.state } := rfl

/-- Rust `Z3Mesh::evolve` rewrites each edge from its own pre-tick value and
the metric taken over the already-evolved vertices. -/
theorem Engine.Z3Mesh.evolve_edges_eq (ops : FloatOps) (dt : ℚ)
    (m : Engine.Z3Mesh) :
    (Engine.Z3Mesh.evolve ops dt m).edges
      = m.edges.map fun e =>
          Engine.Z3Mesh.evolveEdge (ops.fexp (-K_GAMMA * dt))
            (e, Engine.Z3Mesh.metric_internal ops
                  (m.vertices.map fun g =>
                    { g with state := Engine.CRSM7State.evolve ops dt g.state })
                  e.from_ e.to_) := by
  unfold Engine.Z3Mesh.evolve
  exact list_zip_map_map _ _ _

/-- C4: the tick (`Z3Mesh::evolve`) first evolves every vertex state by
dt, then recomputes every edge weight; afterwards each edge's weight is
the 7-D metric between its endpoints' post-evolution states. -/
theorem C4_tick_weights_post_evolution (ops : FloatOps) (dt : ℚ)
    (m : Engine.Z3Mesh) :
    (Engine.Z3Mesh.evolve ops dt m).vertices
        = m.vertices.map (fun g =>
            { g with state := Engine.CRSM7State.evolve ops dt g.state })
    ∧ ∀ k e, (Engine.Z3Mesh.evolve ops dt m).edges.get? k = some e →
        e.weight = Engine.Z3Mesh.metric_internal ops
          (Engine.Z3Mesh.evolve ops dt m).vertices e.from_ e.to_ := by
  refine ⟨rfl, ?_⟩
  intro k e he
  rw [Engine.Z3Mesh.evolve_edges_eq, List.get?_map] at he
  cases h0 : m.edges.get? k with
  | none => rw [h0] at he; simp at he
  | some e0 =>
    rw [h0] at he
    simp only [Option.map_some', Option.some.injEq] at he
    subst he
    rfl

/-- A mesh used to instantiate the tick theorems: two default-state
vertices joined by one edge with Γ = 0.5. -/
def meshA : Engine.Z3Mesh :=
  { vertices :=
      [ { id := "a", name := "A",
          state := Engine.CRSM7State.new (869 / 1000) (12 / 1000) (76901 / 10000) 1
            THETA_CRITICAL 0, bound := false },
        { id := "b", name := "B",
          state := Engine.CRSM7State.new (87 / 100) (2 / 1000) (79 / 10) 1
            THETA_CRITICAL 0, bound := false } ],
    weights := Engine.Matrix7D.new 2,
    edges := [{ from_ := 0, to_ := 1, gamma := 1 / 2, weight := 0, bound := false }] }

/-- C4 witness: the theorem applied at `meshA`, index 0, with a
concrete libm record. -/
theorem C4_tick_weights_post_evolution_witness :
    ((Engine.Z3Mesh.evolve constOps 1 meshA).edges.get? 0).map Engine.Edge.weight
      = some (Engine.Z3Mesh.metric_internal constOps
          (Engine.Z3Mesh.evolve constOps 1 meshA).vertices 0 1) := by
  have h := (C4_tick_weights_post_evolution constOps 1 meshA).2 0
  cases h0 : (Engine.Z3Mesh.evolve constOps 1 meshA).edges.get? 0 with
  | none => exact absurd h0 (by decide)
  | some e =>
    have hw := h e h0
    have hf : e.from_ = 0 ∧ e.to_ = 1 := by
      have : (Engine.Z3Mesh.evolve constOps 1 meshA).edges.get? 0
          = some e := h0
      rw [Engine.Z3Mesh.evolve_edges_eq] at this
      simp only [meshA, List.map_cons, List.map_nil, List.get?] at this
      cases this
      exact ⟨rfl, rfl⟩
    rw [Option.map_some', hw, hf.1, hf.2]

/-- Edge decoherence after one tick is the old value times the decay
factor, so the total is scaled by the decay factor. -/
theorem Engine.Z3Mesh.total_decoherence_evolve (ops : FloatOps) (dt : ℚ)
    (m : Engine.Z3Mesh) :
    (Engine.Z3Mesh.evolve ops dt m).total_decoherence
      = m.total_decoherence * ops.fexp (-K_GAMMA * dt) := by
  unfold Engine.Z3Mesh.total_decoherence
  rw [Engine.Z3Mesh.evolve_edges_eq, List.map_map]
  have hcomp : (Engine.Edge.gamma ∘ fun e =>
      Engine.Z3Mesh.evolveEdge (ops.fexp (-K_GAMMA * dt))
        (e, Engine.Z3Mesh.metric_internal ops
              (m.vertices.map fun g =>
                { g with state := Engine.CRSM7State.evolve ops dt g.state })
              e.from_ e.to_))
      = fun e => e.gamma * ops.fexp (-K_GAMMA * dt) := funext fun e => rfl
  rw [hcomp]
  generalize ops.fexp (-K_GAMMA * dt) = c
  induction m.edges with
  | nil => simp
  | cons e t ih => simp only [List.map_cons, List.sum_cons, ih]; ring

/-- C8: for a mesh whose edge decoherence values are all non-negative,
repeated ticks (with no edges added in between) never increase
`total_decoherence`; the decay factor `exp(-K_GAMMA*dt)` lies in [0,1]
for dt > 0, which is supplied as the analytic fact about the libm
exponential. -/
theorem C8_tick_total_decoherence_monotone (ops : FloatOps) (dt : ℚ)
    (m : Engine.Z3Mesh) (_hdt : 0 < dt)
    (hd0 : 0 ≤ ops.fexp (-K_GAMMA * dt)) (hd1 : ops.fexp (-K_GAMMA * dt) ≤ 1)
    (hg : ∀ e ∈ m.edges, 0 ≤ e.gamma) (n : ℕ) :
    Engine.Z3Mesh.total_decoherence ((Engine.Z3Mesh.evolve ops dt)^[n + 1] m)
      ≤ Engine.Z3Mesh.total_decoherence ((Engine.Z3Mesh.evolve ops dt)^[n] m) := by
  have hinv : ∀ k, ∀ e ∈ ((Engine.Z3Mesh.evolve ops dt)^[k] m).edges, 0 ≤ e.gamma := by
    intro k
    induction k with
    | zero => simpa using hg
    | succ k ih =>
      intro e he
      rw [Function.iterate_succ_apply', Engine.Z3Mesh.evolve_edges_eq] at he
      obtain ⟨e0, he0, rfl⟩ := List.mem_map.1 he
      have h0 : 0 ≤ e0.gamma := ih e0 he0
      simpa [Engine.Z3Mesh.evolveEdge] using mul_nonneg h0 hd0
  have hsum : 0 ≤ Engine.Z3Mesh.total_decoherence ((Engine.Z3Mesh.evolve ops dt)^[n] m) := by
    unfold Engine.Z3Mesh.total_decoherence
    apply List.sum_nonneg
    intro x hx
    obtain ⟨e, he, rfl⟩ := List.mem_map.1 hx
    exact hinv n e he
  rw [Function.iterate_succ_apply', Engine.Z3Mesh.total_decoherence_evolve]
  exact mul_le_of_le_one_right hsum hd1

/-- C8 witness: one tick on `meshA` with a concrete libm record whose
decay factor is 1. -/
theorem C8_tick_total_decoherence_monotone_witness :
    Engine.Z3Mesh.total_decoherence ((Engine.Z3Mesh.evolve constOps 1)^[1] meshA)
      ≤ Engine.Z3Mesh.total_decoherence ((Engine.Z3Mesh.evolve constOps 1)^[0] meshA) :=
  C8_tick_total_decoherence_monotone constOps 1 meshA (by norm_num)
    (by norm_num [constOps]) (by norm_num [constOps])
    (by intro e he; simp [meshA] at he; rw [he]; norm_num) 0

/-! ## C3: `collapse` -/

/-- C3: `collapse(i, j)` locates the (first) edge between `i` and `j`
in either direction; when no edge matches, or the matched edge's
decoherence is 0.01 or more, the mesh is unchanged (a no-op, not an
error); when the matched edge's decoherence is below 0.01 the edge's
bound flag is set, the weight store is untouched, and — when the vertex
indices are in range — both vertices get their `coherence` and
`information` overwritten by the pairwise averages, their emergence
recomputed, and their bound flags set. -/
theorem C3_collapse_behavior (m : Engine.Z3Mesh) (i j : ℕ) :
    (m.edges.findIdx? (Engine.Z3Mesh.edgeMatches i j) = none →
      Engine.Z3Mesh.collapse m i j = m)
    ∧ ∀ idx e, m.edges.findIdx? (Engine.Z3Mesh.edgeMatches i j) = some idx →
        m.edges.get? idx = some e →
        (¬ e.gamma < 1 / 100 → Engine.Z3Mesh.collapse m i j = m)
        ∧ (e.gamma < 1 / 100 →
            (Engine.Z3Mesh.collapse m i j).edges
                = m.edges.set idx { e with bound := true }
            ∧ (Engine.Z3Mesh.collapse m i j).weights = m.weights
            ∧ (¬ (i < m.vertices.length ∧ j < m.vertices.length) →
                (Engine.Z3Mesh.collapse m i j).vertices = m.vertices)
            ∧ ∀ vi vj, m.vertices.get? i = some vi → m.vertices.get? j = some vj →
                (Engine.Z3Mesh.collapse m i j).vertices
                  = (m.vertices.set i
                      { vi with
                        bound := true
                        state := Engine.CRSM7State.compute_emergence
                          { vi.state with
                            lambda := (vi.state.lambda + vj.state.lambda) / 2
                            phi := (vi.state.phi + vj.state.phi) / 2 } }).set j
                      { vj with
                        bound := true
                        state := Engine.CRSM7State.compute_emergence
                          { vj.state with
                            lambda := (vi.state.lambda + vj.state.lambda) / 2
                            phi := (vi.state.phi + vj.state.phi) / 2 } }) := by
  constructor
  · intro hnone
    unfold Engine.Z3Mesh.collapse
    simp only [hnone]
  · intro idx e hidx he
    constructor
    · intro hge
      unfold Engine.Z3Mesh.collapse
      simp only [hidx, he, if_neg hge]
    · intro hlt
      by_cases hrange : i < m.vertices.length ∧ j < m.vertices.length
      · obtain ⟨hi, hj⟩ := hrange
        refine ⟨?_, ?_, fun hc => absurd ⟨hi, hj⟩ hc, ?_⟩
        · unfold Engine.Z3Mesh.collapse
          simp only [hidx, he, if_pos hlt, if_pos (And.intro hi hj),
            List.get?_eq_get hi, List.get?_eq_get hj]
        · unfold Engine.Z3Mesh.collapse
          simp only [hidx, he, if_pos hlt, if_pos (And.intro hi hj),
            List.get?_eq_get hi, List.get?_eq_get hj]
        · intro vi vj hvi hvj
          unfold Engine.Z3Mesh.collapse
          simp only [hidx, he, if_pos hlt, if_pos (And.intro hi hj), hvi, hvj]
          rfl
      · refine ⟨?_, ?_, fun _ => ?_, ?_⟩
        · unfold Engine.Z3Mesh.collapse
          simp only [hidx, he, if_pos hlt, if_neg hrange]
        · unfold Engine.Z3Mesh.collapse
          simp only [hidx, he, if_pos hlt, if_neg hrange]
        · unfold Engine.Z3Mesh.collapse
          simp only [hidx, he, if_pos hlt, if_neg hrange]
        · intro vi vj hvi hvj
          exact absurd ⟨(List.get?_eq_some.1 hvi).1, (List.get?_eq_some.1 hvj).1⟩
            hrange

/-- The mesh of the spec's collapse-averaging example: Λ=0.8, Φ=6.0
and Λ=0.6, Φ=4.0 joined by an edge with Γ = 0.005 < 0.01. -/
def meshC : Engine.Z3Mesh :=
  { vertices :=
      [ { id := "x", name := "X",
          state := Engine.CRSM7State.new (8 / 10) (12 / 1000) 6 1 THETA_CRITICAL 0,
          bound := false },
        { id := "y", name := "Y",
          state := Engine.CRSM7State.new (6 / 10) (12 / 1000) 4 1 THETA_CRITICAL 0,
          bound := false } ],
    weights := Engine.Matrix7D.new 2,
    edges := [{ from_ := 0, to_ := 1, gamma := 5 / 1000, weight := 0, bound := false }] }

/-- C3 witness: collapsing the example mesh sets both vertices to
Λ=0.7, Φ=5.0 with bound=true and latches the edge. -/
theorem C3_collapse_behavior_witness :
    ((Engine.Z3Mesh.collapse meshC 0 1).vertices.map fun g =>
        (g.state.lambda, g.state.phi, g.bound)) = [(7 / 10, 5, true), (7 / 10, 5, true)]
    ∧ (Engine.Z3Mesh.collapse meshC 0 1).edges.map Engine.Edge.bound = [true] := by
  have h := ((C3_collapse_behavior meshC 0 1).2 0
      { from_ := 0, to_ := 1, gamma := 5 / 1000, weight := 0, bound := false }
      rfl rfl).2 (by norm_num)
  obtain ⟨hedges, _, _, hv⟩ := h
  constructor
  · rw [hv _ _ rfl rfl]
    norm_num [meshC, Engine.CRSM7State.new, Engine.CRSM7State.compute_emergence,
      GAMMA_TOLERANCE]
  · rw [hedges]
    rfl
